import Mathlib

/-
  Verification development for the DigBiz3 AI engine (ai-engine/app.py).

  The Python module is shallowly embedded: dictionaries with optional keys
  become structures with `Option` fields (the per-call-site defaults of
  `.get(key, default)` are applied with `Option.getD` exactly where the
  source applies them), Python numbers become `ℚ`, Python's substring test
  `needle in haystack` becomes `pyIn`, and `str.split()` becomes `pySplit`.
  The only operation of the matching engine that can raise for well-typed
  inputs is the `min/max` network-value ratio inside
  `_extract_matching_features` (ZeroDivisionError when both effective
  network values are 0); it is embedded as an `Option`-returning function,
  and the enclosing `try/except` of `calculate_match_score` becomes a match
  on that `Option`.  The TextBlob noun-phrase extractor used by the bio
  similarity is an external NLP library and is abstracted as a parameter
  `nounPhrases : String → List String`; everything downstream of it is
  embedded exactly.
-/

/-- Python's `startswith` on character lists: first list is the candidate
    leading segment, second the scanned list. -/
def startsWithChars : List Char → List Char → Bool
  | [], _ => true
  | _ :: _, [] => false
  | a :: as, b :: bs => (a = b) && startsWithChars as bs

/-- Occurrence of `nd` as a contiguous segment of the second list
    (Python's `in` on strings, including `"" in s = True`). -/
def hasSubChars (nd : List Char) : List Char → Bool
  | [] => nd.isEmpty
  | c :: t => startsWithChars nd (c :: t) || hasSubChars nd t

/-- Python's `needle in haystack` substring test. -/
def pyIn (needle haystack : String) : Bool :=
  hasSubChars needle.data haystack.data

/-- ASCII lower-casing of a character list (Python's `str.lower()`; every
    string in the engine's tables is ASCII). -/
def lowerChars : List Char → List Char
  | [] => []
  | c :: t => c.toLower :: lowerChars t

/-- Python's `str.lower()`. -/
def pyLower (s : String) : String := String.mk (lowerChars s.data)

/-- `pyLower`, alias used where the source lower-cases list elements. -/
def pyLowerStr (s : String) : String := pyLower s

/-- Accumulator pass of `pySplit`: current word characters are collected
    in reverse in `acc`, whitespace flushes the word, empties dropped. -/
def wordsAux : List Char → List Char → List String
  | [], acc => if acc.isEmpty then [] else [String.mk acc.reverse]
  | c :: t, acc =>
      if c.isWhitespace then
        (if acc.isEmpty then wordsAux t [] else String.mk acc.reverse :: wordsAux t [])
      else wordsAux t (c :: acc)

/-- Python's `str.split()` with no argument: split on whitespace runs and
    drop empty fragments. -/
def pySplit (s : String) : List String := wordsAux s.data []

/-- A user profile record as consumed by the matching engine: every field
    is optional, call sites supply their own defaults via `.get`. -/
structure Profile where
  industry : Option String := none
  title : Option String := none
  bio : Option String := none
  networkValue : Option ℚ := none
  location : Option String := none
  reputation : Option ℚ := none
deriving DecidableEq

/-- The `compatibility_matrix` dict of
    `AdvancedMatchingEngine._calculate_industry_compatibility`. -/
def compatibility_matrix : List (String × List (String × ℚ)) :=
  [ ("technology", [("finance", 0.8), ("healthcare", 0.7), ("technology", 0.9), ("marketing", 0.75)]),
    ("finance", [("technology", 0.8), ("real-estate", 0.9), ("finance", 0.6), ("consulting", 0.85)]),
    ("healthcare", [("technology", 0.7), ("pharmaceuticals", 0.9), ("healthcare", 0.5), ("research", 0.8)]),
    ("marketing", [("technology", 0.75), ("retail", 0.8), ("media", 0.9), ("marketing", 0.6)]),
    ("consulting", [("finance", 0.85), ("technology", 0.75), ("healthcare", 0.7), ("consulting", 0.5)]) ]

/-- `AdvancedMatchingEngine._calculate_industry_compatibility`:
    `compatibility_matrix.get(i1.lower(), dict()).get(i2.lower(), 0.5)`. -/
def calculate_industry_compatibility (industry1 industry2 : String) : ℚ :=
  (((compatibility_matrix.lookup (pyLower industry1)).getD []).lookup (pyLower industry2)).getD 0.5

/-- `AdvancedMatchingEngine._extract_seniority_level`: keyword matching on
    the lower-cased title, checked from tier 5 down to tier 2, else 1. -/
def extract_seniority_level (title : String) : ℤ :=
  if ["ceo", "founder", "president", "owner"].any (fun w => pyIn w (pyLower title)) then 5
  else if ["director", "vp", "vice president", "head"].any (fun w => pyIn w (pyLower title)) then 4
  else if ["manager", "lead", "principal"].any (fun w => pyIn w (pyLower title)) then 3
  else if ["senior", "sr"].any (fun w => pyIn w (pyLower title)) then 2
  else 1

/-- `AdvancedMatchingEngine._calculate_title_synergy`. -/
def calculate_title_synergy (title1 title2 : String) : ℚ :=
  if 1 ≤ |extract_seniority_level title1 - extract_seniority_level title2| ∧
     |extract_seniority_level title1 - extract_seniority_level title2| ≤ 2 then 0.8
  else if |extract_seniority_level title1 - extract_seniority_level title2| = 0 then 0.6
  else 0.4

/-- `AdvancedMatchingEngine._calculate_bio_similarity`: Jaccard similarity
    of the lower-cased noun-phrase keyword sets; 0.5 when either bio is
    empty or either keyword set is empty. -/
def calculate_bio_similarity (nounPhrases : String → List String) (bio1 bio2 : String) : ℚ :=
  if bio1 = "" ∨ bio2 = "" then 0.5
  else
    if ((nounPhrases bio1).map pyLowerStr).toFinset = ∅ ∨
       ((nounPhrases bio2).map pyLowerStr).toFinset = ∅ then 0.5
    else
      if 0 < (((nounPhrases bio1).map pyLowerStr).toFinset ∪
              ((nounPhrases bio2).map pyLowerStr).toFinset).card then
        ((((nounPhrases bio1).map pyLowerStr).toFinset ∩
          ((nounPhrases bio2).map pyLowerStr).toFinset).card : ℚ) /
        ((((nounPhrases bio1).map pyLowerStr).toFinset ∪
          ((nounPhrases bio2).map pyLowerStr).toFinset).card : ℚ)
      else 0

/-- `AdvancedMatchingEngine._calculate_network_value_compatibility`. -/
def calculate_network_value_compatibility (value1 value2 : ℚ) : ℚ :=
  if value1 = 0 ∨ value2 = 0 then 0.3
  else min value1 value2 / max value1 value2 * 0.8 + 0.2

/-- `AdvancedMatchingEngine._calculate_location_proximity`. -/
def calculate_location_proximity (loc1 loc2 : String) : ℚ :=
  if loc1 = "" ∨ loc2 = "" then 0.5
  else if (pyLower loc1) = (pyLower loc2) then 1
  else if (pySplit (pyLower loc1)).any (fun w => pyIn w (pyLower loc2)) then 0.8
  else 0.3

/-- `AdvancedMatchingEngine._extract_matching_features`.  The returned
    triple is (industry_match, seniority_diff, network value ratio); the
    ratio `min(nv1, nv2) / max(nv1, nv2)` (defaults 1) raises
    ZeroDivisionError in the source exactly when the max is 0, embedded
    here as `none`. -/
def extract_matching_features (user1 user2 : Profile) : Option (ℚ × ℤ × ℚ) :=
  if max (user1.networkValue.getD 1) (user2.networkValue.getD 1) = 0 then none
  else some
    (calculate_industry_compatibility (user1.industry.getD "") (user2.industry.getD ""),
     |extract_seniority_level (user1.title.getD "") - extract_seniority_level (user2.title.getD "")|,
     min (user1.networkValue.getD 1) (user2.networkValue.getD 1) /
       max (user1.networkValue.getD 1) (user2.networkValue.getD 1))

/-- `AdvancedMatchingEngine.calculate_match_score`: the five weighted
    sub-scores, scaled by 100 and clamped to [0, 100]; the `except` branch
    (reached when feature extraction divides by zero) returns 0.0. -/
def calculate_match_score (nounPhrases : String → List String) (user1 user2 : Profile) : ℚ :=
  match extract_matching_features user1 user2 with
  | none => 0
  | some _ =>
      min (max ((calculate_industry_compatibility (user1.industry.getD "") (user2.industry.getD "") * 0.25 +
                 calculate_title_synergy (user1.title.getD "") (user2.title.getD "") * 0.20 +
                 calculate_bio_similarity nounPhrases (user1.bio.getD "") (user2.bio.getD "") * 0.20 +
                 calculate_network_value_compatibility (user1.networkValue.getD 0) (user2.networkValue.getD 0) * 0.15 +
                 calculate_location_proximity (user1.location.getD "") (user2.location.getD "") * 0.20) * 100) 0) 100

/-- A meeting-context record (`context` argument of
    `predict_meeting_success`).  A `some` value embeds a non-empty (truthy)
    Python dict; an absent or empty dict is embedded as `none` at the call
    site, matching the `if context:` truthiness test in the source. -/
structure MeetingContext where
  type : Option String := none
  location : Option String := none
  timing : Option String := none
deriving DecidableEq

/-- `AdvancedMatchingEngine._analyze_meeting_context`: base 0.5 plus three
    independent bonuses, capped at 1.0; absent fields default to
    'business' / 'office' / 'business_hours'. -/
def analyze_meeting_context (context : MeetingContext) : ℚ :=
  min (0.5 +
       (if context.type.getD "business" ∈ ["business", "networking"] then 0.2 else 0) +
       (if context.location.getD "office" ∈ ["office", "conference", "coffee_shop"] then 0.15 else 0) +
       (if context.timing.getD "business_hours" = "business_hours" then 0.15 else 0)) 1

/-- Lines 117-119 of the source: `context_score = 0.7` unless a truthy
    context is supplied, in which case `_analyze_meeting_context` runs. -/
def meeting_context_score (context : Option MeetingContext) : ℚ :=
  match context with
  | none => 0.7
  | some c => analyze_meeting_context c

/-- `AdvancedMatchingEngine.predict_meeting_success`: weighted blend of
    compatibility, context score, average reputation and the fixed
    historical rate 0.65, scaled by 100 and clamped to [0, 100]. -/
def predict_meeting_success (nounPhrases : String → List String)
    (user1 user2 : Profile) (context : Option MeetingContext) : ℚ :=
  min (max ((calculate_match_score nounPhrases user1 user2 / 100 * 0.4 +
             meeting_context_score context * 0.25 +
             (user1.reputation.getD 50 / 100 + user2.reputation.getD 50 / 100) / 2 * 0.20 +
             0.65 * 0.15) * 100) 0) 100

/-- Industry growth figures (`_calculate_industry_growth`). -/
structure GrowthInfo where
  rate : ℚ
  trajectory : String
deriving DecidableEq

/-- One competitor row of `_analyze_competitors`. -/
structure Competitor where
  name : String
  market_share : ℚ
  threat_level : String
deriving DecidableEq

/-- One row of `_identify_investment_opportunities`. -/
structure InvestmentOpp where
  sector : String
  potential : String
  risk : String
deriving DecidableEq

/-- The demand forecast of `_forecast_market_demand`; the default trends
    bundle omits the `factors` key, hence the `Option`. -/
structure DemandInfo where
  short_term : String
  long_term : String
  factors : Option (List String)
deriving DecidableEq

/-- One row of `_suggest_pricing_strategies`. -/
structure PricingStrategy where
  strategy : String
  impact : String
deriving DecidableEq

/-- The trends dict produced by `analyze_market_trends`.  The default
    bundle of `_get_default_trends` lacks the `priceOptimization` and
    `lastUpdated` keys, so those fields are `Option`s. -/
structure TrendsBundle where
  industryGrowth : GrowthInfo
  emergingTrends : List String
  competitorAnalysis : List Competitor
  investmentOpportunities : List InvestmentOpp
  marketDemand : DemandInfo
  priceOptimization : Option (List PricingStrategy)
  lastUpdated : Option ℚ
  confidence : ℚ
deriving DecidableEq

/-- `MarketIntelligenceEngine._calculate_industry_growth`. -/
def calculate_industry_growth (industry : String) : GrowthInfo :=
  (([("technology", GrowthInfo.mk 0.23 "accelerating"),
     ("finance", GrowthInfo.mk 0.08 "stable"),
     ("healthcare", GrowthInfo.mk 0.15 "steady"),
     ("marketing", GrowthInfo.mk 0.12 "evolving"),
     ("consulting", GrowthInfo.mk 0.06 "mature")].lookup (pyLower industry)).getD
    (GrowthInfo.mk 0.05 "stable"))

/-- `MarketIntelligenceEngine._identify_emerging_trends`. -/
def identify_emerging_trends (industry : String) : List String :=
  (([("technology", ["AI/ML adoption", "Edge computing", "Quantum computing"]),
     ("finance", ["DeFi growth", "Digital banking", "Regulatory tech"]),
     ("healthcare", ["Telemedicine", "Precision medicine", "Health AI"]),
     ("marketing", ["Influencer marketing", "Privacy-first advertising", "AR/VR experiences"])].lookup
    (pyLower industry)).getD ["Digital transformation", "Sustainability focus"])

/-- `MarketIntelligenceEngine._analyze_competitors` (industry-independent). -/
def analyze_competitors (_industry : String) : List Competitor :=
  [Competitor.mk "Market Leader" 0.35 "high",
   Competitor.mk "Emerging Player" 0.15 "medium",
   Competitor.mk "Niche Specialist" 0.08 "low"]

/-- `MarketIntelligenceEngine._identify_investment_opportunities`. -/
def identify_investment_opportunities (industry : String) : List InvestmentOpp :=
  [InvestmentOpp.mk (industry ++ " startups") "high" "medium",
   InvestmentOpp.mk (industry ++ " infrastructure") "medium" "low"]

/-- `MarketIntelligenceEngine._forecast_market_demand`. -/
def forecast_market_demand (_industry : String) : DemandInfo :=
  DemandInfo.mk "increasing" "strong" (some ["digital transformation", "remote work trends"])

/-- `MarketIntelligenceEngine._suggest_pricing_strategies`. -/
def suggest_pricing_strategies (_industry : String) : List PricingStrategy :=
  [PricingStrategy.mk "Value-based pricing" "+15% revenue",
   PricingStrategy.mk "Dynamic pricing" "+8% efficiency"]

/-- `MarketIntelligenceEngine._get_default_trends`: the fixed bundle
    returned from the `except` branch, never written to the cache. -/
def default_trends : TrendsBundle :=
  { industryGrowth := GrowthInfo.mk 0.05 "stable"
    emergingTrends := ["Digital transformation"]
    competitorAnalysis := []
    investmentOpportunities := []
    marketDemand := DemandInfo.mk "stable" "unknown" none
    priceOptimization := none
    lastUpdated := none
    confidence := 0.3 }

/-- The fresh trends dict built in `analyze_market_trends`; `now` is the
    current time in hours (timestamps and the 6-hour TTL share this unit)
    and `jitter` is the drawn `np.random.normal(0, 0.05)` sample. -/
def compute_trends (industry : String) (now jitter : ℚ) : TrendsBundle :=
  { industryGrowth := calculate_industry_growth industry
    emergingTrends := identify_emerging_trends industry
    competitorAnalysis := analyze_competitors industry
    investmentOpportunities := identify_investment_opportunities industry
    marketDemand := forecast_market_demand industry
    priceOptimization := some (suggest_pricing_strategies industry)
    lastUpdated := some now
    confidence := 0.85 + jitter }

/-- One value of the `trends_cache` dict: the stored bundle plus the
    timestamp of the write. -/
structure CacheEntry where
  data : TrendsBundle
  timestamp : ℚ
deriving DecidableEq

/-- The `trends_cache` dict, as an association list keyed by the
    formatted cache key. -/
abbrev TrendsCache := List (String × CacheEntry)

/-- The f-string cache key `f"{industry}_{user_location}"`; Python renders
    an absent location (`None`) as the text `"None"`. -/
def mkCacheKey (industry : String) (user_location : Option String) : String :=
  industry ++ "_" ++ (match user_location with | none => "None" | some s => s)

/-- Dict read `trends_cache.get(key)`. -/
def cacheLookup (c : TrendsCache) (k : String) : Option CacheEntry :=
  (c.find? (fun p => p.1 == k)).map (fun p => p.2)

/-- Dict write `trends_cache[key] = entry`, overwriting any prior entry. -/
def cacheInsert (c : TrendsCache) (k : String) (e : CacheEntry) : TrendsCache :=
  (k, e) :: c.filter (fun p => !(p.1 == k))

/-- `cache_expiry = timedelta(hours=6)`, in hours. -/
def cache_expiry : ℚ := 6

/-- `MarketIntelligenceEngine.analyze_market_trends`: return the cached
    bundle while `now - timestamp < cache_expiry`, otherwise compute a
    fresh bundle, store it under the key and return it.  The embedding
    returns the produced bundle together with the updated cache. -/
def analyze_market_trends (c : TrendsCache) (now jitter : ℚ)
    (industry : String) (user_location : Option String) : TrendsBundle × TrendsCache :=
  match cacheLookup c (mkCacheKey industry user_location) with
  | some e =>
      if now - e.timestamp < cache_expiry then (e.data, c)
      else (compute_trends industry now jitter,
            cacheInsert c (mkCacheKey industry user_location)
              (CacheEntry.mk (compute_trends industry now jitter) now))
  | none => (compute_trends industry now jitter,
             cacheInsert c (mkCacheKey industry user_location)
               (CacheEntry.mk (compute_trends industry now jitter) now))

/-- Generic stable descending insertion (matches Python's stable
    `list.sort(key=..., reverse=True)`): an element is placed before the
    first strictly-later element whose key it meets or exceeds. -/
def insertByDesc {α : Type} (key : α → ℚ) (x : α) : List α → List α
  | [] => [x]
  | y :: ys => if key y ≤ key x then x :: y :: ys else y :: insertByDesc key x ys

/-- Stable descending sort by a rational key. -/
def sortByDesc {α : Type} (key : α → ℚ) : List α → List α
  | [] => []
  | x :: xs => insertByDesc key x (sortByDesc key xs)

/-- One opportunity dict of `predict_business_opportunities`. -/
structure Opportunity where
  type : String
  title : String
  description : String
  potential_value : String
  confidence : ℚ
  timeline : String
deriving DecidableEq

/-- The first fixed technology-sector opportunity (confidence 0.78). -/
def tech_opp_1 : Opportunity :=
  Opportunity.mk "partnership" "AI Integration Partnership"
    "Growing demand for AI solutions in traditional industries" "$250K - $2M" 0.78 "3-6 months"

/-- The second fixed technology-sector opportunity (confidence 0.85). -/
def tech_opp_2 : Opportunity :=
  Opportunity.mk "market_expansion" "Healthcare Tech Expansion"
    "Digital health market growing 23% annually" "$500K - $5M" 0.85 "6-12 months"

/-- The fixed investment opportunity (confidence 0.72). -/
def invest_opp : Opportunity :=
  Opportunity.mk "investment" "Angel Investment Opportunities"
    "Your network positions you well for early-stage investments"
    "$50K - $500K investment rounds" 0.72 "1-3 months"

/-- `MarketIntelligenceEngine.predict_business_opportunities`: append the
    two technology opportunities when the industry text contains
    "technology", append the investment opportunity when the network value
    exceeds 10000, sort by confidence descending, keep the top 5. -/
def predict_business_opportunities (user_profile : Profile) : List Opportunity :=
  (sortByDesc (fun o => o.confidence)
    ((if pyIn "technology" (pyLower (user_profile.industry.getD "")) then [tech_opp_1, tech_opp_2] else []) ++
     (if user_profile.networkValue.getD 0 > 10000 then [invest_opp] else []))).take 5

/-- A deal record as consumed by `DealSuccessPredictor`. -/
structure DealRecord where
  value : Option ℚ := none
  description : Option String := none
  match_score : Option ℚ := none
  duration_months : Option ℚ := none
deriving DecidableEq

/-- `DealSuccessPredictor._extract_deal_features`: the five normalized
    features [value, description length, match score, urgency flag,
    duration]. -/
def extract_deal_features (deal_data : DealRecord) : List ℚ :=
  [ deal_data.value.getD 10000 / 1000000,
    ((deal_data.description.getD "").length : ℚ) / 1000,
    deal_data.match_score.getD 50 / 100,
    if pyIn "urgent" (pyLower (deal_data.description.getD "")) then 1 else 0,
    deal_data.duration_months.getD 6 / 12 ]

/-- The 1000 x 5 synthetic feature matrix `X = np.random.rand(1000, 5)` of
    `_train_model`; `rx i j` is the uniform draw for row `i`, column `j`
    of the numpy stream seeded with 42 (the stream is a fixed parameter,
    so every training run sees the identical dataset, exactly as the
    re-seeding with 42 guarantees in the source). -/
def syntheticX (rx : Nat → Nat → ℚ) : List (List ℚ) :=
  (List.range 1000).map (fun i => (List.range 5).map (fun j => rx i j))

/-- The synthetic targets of `_train_model`: coefficients 0.2 (value),
    0.4 (match score), 0.1 (urgency), 0.2 (inverse duration) plus the
    Gaussian noise draw `rn i`, clipped to [0, 1]. -/
def syntheticY (rx : Nat → Nat → ℚ) (rn : Nat → ℚ) : List ℚ :=
  (List.range 1000).map (fun i =>
    min (max (rx i 0 * 0.2 + rx i 2 * 0.4 + rx i 3 * 0.1 + (1 - rx i 4) * 0.2 + rn i) 0) 1)

/-- The mutable state of `DealSuccessPredictor`.  The fitted
    GradientBoostingRegressor is abstracted by the training set it was fit
    on (`modelData`); an unfitted estimator is `none`.  `is_trained` is the
    lazy-training flag set by `_train_model`. -/
structure DealSuccessPredictor where
  modelData : Option (List (List ℚ) × List ℚ)
  is_trained : Bool
deriving DecidableEq

/-- `DealSuccessPredictor.__init__`: fresh estimator, untrained. -/
def deal_predictor_init : DealSuccessPredictor :=
  DealSuccessPredictor.mk none false

/-- `DealSuccessPredictor._train_model`: fit the estimator on the seeded
    synthetic dataset and set the trained flag. -/
def train_model (rx : Nat → Nat → ℚ) (rn : Nat → ℚ)
    (_st : DealSuccessPredictor) : DealSuccessPredictor :=
  DealSuccessPredictor.mk (some (syntheticX rx, syntheticY rx rn)) true

/-- One entry of the `key_factors` list of `_identify_key_factors`. -/
structure KeyFactor where
  factor : String
  importance : ℚ
  current_value : ℚ
  impact : String
deriving DecidableEq

/-- `DealSuccessPredictor._identify_key_factors`: keep the features whose
    static importance exceeds 0.15, tag the impact by the 0.5 threshold,
    sort by importance descending (stable). -/
def identify_key_factors (features : List ℚ) : List KeyFactor :=
  sortByDesc (fun f => f.importance)
    (((["Deal Value", "Description Detail", "Partner Compatibility", "Urgency", "Timeline"].zip
       (([0.2, 0.1, 0.4, 0.1, 0.2] : List ℚ).zip features)).filterMap
      (fun x => if x.2.1 > 0.15 then
          some (KeyFactor.mk x.1 x.2.1 x.2.2 (if x.2.2 > 0.5 then "positive" else "negative"))
        else none)))

/-- `DealSuccessPredictor._generate_recommendations`: the four advisory
    rules, evaluated in the fixed source order. -/
def generate_recommendations (features : List ℚ) (success_prob : ℚ) : List String :=
  (if features.getD 2 0 < 0.6 then
     ["Consider improving partner alignment through preliminary meetings"] else []) ++
  (if features.getD 1 0 < 0.3 then
     ["Provide more detailed deal documentation to build trust"] else []) ++
  (if success_prob < 0.5 then
     ["Consider risk mitigation strategies or deal restructuring"] else []) ++
  (if features.getD 0 0 > 0.8 then
     ["Implement milestone-based payment structure for large deals"] else [])

/-- The prediction dict of `predict_deal_success`. -/
structure DealPrediction where
  success_probability : ℚ
  confidence : ℚ
  key_factors : List KeyFactor
  recommendations : List String
deriving DecidableEq

/-- The `except` branch value of `predict_deal_success`. -/
def default_deal_prediction : DealPrediction :=
  DealPrediction.mk 50 0.3 [] []

/-- `DealSuccessPredictor.predict_deal_success`.  `predictFn` abstracts
    `self.model.predict` (a fitted sklearn regressor applied to a feature
    row); `none` embeds a raised exception, routed to the `except` branch.
    State mutations made before such an exception (the lazy training)
    persist, exactly as in the source. -/
def predict_deal_success (rx : Nat → Nat → ℚ) (rn : Nat → ℚ)
    (predictFn : Option (List (List ℚ) × List ℚ) → List ℚ → Option ℚ)
    (st : DealSuccessPredictor) (deal_data : DealRecord) :
    DealSuccessPredictor × DealPrediction :=
  match predictFn (if st.is_trained then st else train_model rx rn st).modelData
        (extract_deal_features deal_data) with
  | none => ((if st.is_trained then st else train_model rx rn st), default_deal_prediction)
  | some p =>
      ((if st.is_trained then st else train_model rx rn st),
       DealPrediction.mk (max 0 (min 1 p) * 100) 0.82
         (identify_key_factors (extract_deal_features deal_data))
         (generate_recommendations (extract_deal_features deal_data) (max 0 (min 1 p))))

/-- Spec-side restatement of claim C1's formula: the weighted sum of the
    five sub-scores (weights 0.25 / 0.20 / 0.20 / 0.15 / 0.20), scaled by
    100 and clamped to [0, 100], with no failure path. -/
def spec_match_score (nounPhrases : String → List String) (a b : Profile) : ℚ :=
  min (max ((0.25 * calculate_industry_compatibility (a.industry.getD "") (b.industry.getD "") +
             0.20 * calculate_title_synergy (a.title.getD "") (b.title.getD "") +
             0.20 * calculate_bio_similarity nounPhrases (a.bio.getD "") (b.bio.getD "") +
             0.15 * calculate_network_value_compatibility (a.networkValue.getD 0) (b.networkValue.getD 0) +
             0.20 * calculate_location_proximity (a.location.getD "") (b.location.getD "")) * 100) 0) 100

/-- Claim C1 as stated is false: for the pair of profiles that both carry
    `networkValue = 0`, the claimed weighted-sum formula yields 49, but the
    source hits a ZeroDivisionError in `_extract_matching_features` and the
    `except` branch returns 0.0 instead. -/
theorem C1_counterexample :
    calculate_match_score (fun _ => []) { networkValue := some 0 } { networkValue := some 0 } = 0 ∧
    spec_match_score (fun _ => []) { networkValue := some 0 } { networkValue := some 0 } = 49 := by
  constructor
  · rw [calculate_match_score, extract_matching_features, if_pos (by norm_num)]
  · show min (max ((0.25 * calculate_industry_compatibility "" "" +
        0.20 * calculate_title_synergy "" "" +
        0.20 * calculate_bio_similarity (fun _ => []) "" "" +
        0.15 * calculate_network_value_compatibility 0 0 +
        0.20 * calculate_location_proximity "" "") * 100) 0) 100 = 49
    rw [show calculate_industry_compatibility "" "" = 0.5 from rfl,
        show calculate_title_synergy "" "" = 0.6 from rfl,
        show calculate_bio_similarity (fun _ => []) "" "" = 0.5 from rfl,
        show calculate_network_value_compatibility 0 0 = 0.3 from rfl,
        show calculate_location_proximity "" "" = 0.5 from rfl]
    norm_num

/-- Claim C1, amended: `calculate_match_score` returns the weighted sum of
    the five sub-scores scaled by 100 and clamped to [0, 100], except when
    both effective network values (field default 1) have maximum 0 — the
    feature-extraction ratio then divides by zero and the caught exception
    yields 0.0; in every case the result lies in [0, 100]. -/
theorem C1_amended : ∀ (nounPhrases : String → List String) (a b : Profile),
    calculate_match_score nounPhrases a b =
      (if max (a.networkValue.getD 1) (b.networkValue.getD 1) = 0 then 0
       else spec_match_score nounPhrases a b) ∧
    0 ≤ calculate_match_score nounPhrases a b ∧ calculate_match_score nounPhrases a b ≤ 100 := by
  intro f a b
  by_cases h : max (a.networkValue.getD 1) (b.networkValue.getD 1) = 0
  · have hE : extract_matching_features a b = none := by
      rw [extract_matching_features, if_pos h]
    simp only [calculate_match_score, hE, if_pos h]
    norm_num
  · obtain ⟨v, hE⟩ : ∃ v, extract_matching_features a b = some v := by
      rw [extract_matching_features, if_neg h]; exact ⟨_, rfl⟩
    simp only [calculate_match_score, hE, if_neg h]
    refine ⟨?_, le_min (le_max_right _ 0) (by norm_num), min_le_right _ _⟩
    rw [spec_match_score]
    ring_nf

/-- Claim C5: the seniority-tier extraction maps "CEO" to 5, "Director" to
    4, "Manager" to 3, "Senior Engineer" to 2 and "Engineer" to 1, and the
    title synergy is 0.8 when the absolute tier difference is 1 or 2, 0.6
    when the tiers are equal, and 0.4 otherwise. -/
theorem C5_seniority_synergy :
    extract_seniority_level "CEO" = 5 ∧ extract_seniority_level "Director" = 4 ∧
    extract_seniority_level "Manager" = 3 ∧ extract_seniority_level "Senior Engineer" = 2 ∧
    extract_seniority_level "Engineer" = 1 ∧
    ∀ t1 t2 : String,
      calculate_title_synergy t1 t2 =
        (if |extract_seniority_level t1 - extract_seniority_level t2| = 1 ∨
            |extract_seniority_level t1 - extract_seniority_level t2| = 2 then 0.8
         else if extract_seniority_level t1 = extract_seniority_level t2 then 0.6
         else 0.4) := by
  refine ⟨by decide, by decide, by decide, by decide, by decide, ?_⟩
  intro t1 t2
  have hd : 0 ≤ |extract_seniority_level t1 - extract_seniority_level t2| := abs_nonneg _
  rw [calculate_title_synergy]
  by_cases h1 : 1 ≤ |extract_seniority_level t1 - extract_seniority_level t2| ∧
      |extract_seniority_level t1 - extract_seniority_level t2| ≤ 2
  · rw [if_pos h1, if_pos (by omega)]
  · rw [if_neg h1]
    by_cases h2 : |extract_seniority_level t1 - extract_seniority_level t2| = 0
    · rw [if_pos h2, if_neg (by omega), if_pos (by
        have := abs_eq_zero.mp h2; exact sub_eq_zero.mp this)]
    · rw [if_neg h2, if_neg (by omega), if_neg (fun he => h2 (by rw [he, sub_self, abs_zero]))]

/-- Claim C6 as stated is false: with `loc1 = "ab cd"` and `loc2 = "b c"`,
    the second location's whole value occurs as a literal substring of the
    first, the locations are non-empty and differ case-insensitively, yet
    the proximity sub-score is 0.3, not the claimed 0.8 — the source only
    tests words of the FIRST location against the second. -/
theorem C6_counterexample :
    pyIn "b c" "ab cd" = true ∧ ("ab cd" : String) ≠ "" ∧ ("b c" : String) ≠ "" ∧
    pyLower "ab cd" ≠ pyLower "b c" ∧
    calculate_location_proximity "ab cd" "b c" = 0.3 := by
  refine ⟨by decide, by decide, by decide, by decide, ?_⟩
  rw [calculate_location_proximity, if_neg (by decide), if_neg (by decide), if_neg (by decide)]

/-- Claim C6, amended: the proximity sub-score is 0.5 if either location
    is empty, 1.0 on exact case-insensitive equality, 0.8 when some
    whitespace-separated word of the first location occurs as a substring
    of the second (case-insensitively; the test is asymmetric), and 0.3
    otherwise. -/
theorem C6_amended : ∀ loc1 loc2 : String,
    calculate_location_proximity loc1 loc2 =
      (if loc1 = "" ∨ loc2 = "" then 0.5
       else if pyLower loc1 = pyLower loc2 then 1
       else if ∃ w ∈ pySplit (pyLower loc1), pyIn w (pyLower loc2) = true then 0.8
       else 0.3) := by
  intro l1 l2
  simp only [calculate_location_proximity, List.any_eq_true]

/-- Claim C10: a supplied (truthy) context record whose `type`, `location`
    and `timing` fields are all absent receives every per-field default
    bonus, so its context score is 1.0 — strictly greater than the 0.7
    used when the context argument is absent or empty. -/
theorem C10_default_context :
    analyze_meeting_context { type := none, location := none, timing := none } = 1 ∧
    meeting_context_score (some { type := none, location := none, timing := none }) = 1 ∧
    meeting_context_score none = 0.7 ∧ (0.7 : ℚ) < 1 := by
  have h : analyze_meeting_context { type := none, location := none, timing := none } = 1 := by
    rw [analyze_meeting_context, if_pos (by decide), if_pos (by decide), if_pos (by decide)]
    norm_num
  exact ⟨h, h, rfl, by norm_num⟩

/-- Spec-side restatement of claim C4's formula: match score/100 at weight
    0.40, context score at 0.25 (0.7 when no context; otherwise base 0.5
    plus 0.2 for a business/networking type, 0.15 for an
    office/conference/coffee_shop location, 0.15 for business_hours
    timing, capped at 1.0), average reputation/100 at 0.20 and the fixed
    historical rate 0.65 at 0.15, scaled by 100, clamped to [0, 100]. -/
def spec_meeting_success (nounPhrases : String → List String) (a b : Profile)
    (context : Option MeetingContext) : ℚ :=
  min (max (((calculate_match_score nounPhrases a b / 100) * 0.40 +
             (match context with
              | none => 0.7
              | some c =>
                  min (0.5 +
                       (if c.type.getD "business" = "business" ∨
                           c.type.getD "business" = "networking" then 0.2 else 0) +
                       (if c.location.getD "office" = "office" ∨
                           c.location.getD "office" = "conference" ∨
                           c.location.getD "office" = "coffee_shop" then 0.15 else 0) +
                       (if c.timing.getD "business_hours" = "business_hours" then 0.15 else 0)) 1) * 0.25 +
             ((a.reputation.getD 50 + b.reputation.getD 50) / 2 / 100) * 0.20 +
             0.65 * 0.15) * 100) 0) 100

/-- Claim C4: `predict_meeting_success` computes exactly the formula of the
    claim — weights 0.40 / 0.25 / 0.20 / 0.15, context score defaulting to
    0.7 without a context and otherwise built from the three bonuses over
    the base 0.5 capped at 1.0, scaled by 100 and clamped to [0, 100]. -/
theorem C4_meeting_formula : ∀ (nounPhrases : String → List String) (a b : Profile)
    (context : Option MeetingContext),
    predict_meeting_success nounPhrases a b context = spec_meeting_success nounPhrases a b context := by
  intro f a b ctx
  cases ctx with
  | none =>
      simp only [predict_meeting_success, spec_meeting_success, meeting_context_score]
      ring_nf
  | some c =>
      simp only [predict_meeting_success, spec_meeting_success, meeting_context_score,
        analyze_meeting_context, List.mem_cons, List.mem_singleton, List.not_mem_nil, or_false]
      ring_nf

/-- Bound propagation through a Python dict `get` with default, embedded
    as `List.lookup` plus `Option.getD`. -/
theorem lookup_getD_bound {β : Type} (P : β → Prop) (l : List (String × β)) (k : String)
    (d : β) (hl : ∀ p ∈ l, P p.2) (hd : P d) : P ((l.lookup k).getD d) := by
  induction l with
  | nil => exact hd
  | cons p t ih =>
      obtain ⟨k', v⟩ := p
      rw [List.lookup]
      cases h : k == k' with
      | true => exact hl (k', v) (List.mem_cons_self _ _)
      | false => exact ih (fun q hq => hl q (List.mem_cons_of_mem _ hq))

/-- Every affinity in the industry table is at most 0.9, and the default
    is 0.5, so the industry sub-score never exceeds 0.9. -/
theorem industry_compat_le : ∀ i1 i2 : String, calculate_industry_compatibility i1 i2 ≤ 0.9 := by
  intro i1 i2
  rw [calculate_industry_compatibility]
  refine lookup_getD_bound (fun row => (((row.lookup (pyLower i2)).getD 0.5 : ℚ) ≤ 0.9))
    compatibility_matrix (pyLower i1) [] ?_ (by norm_num)
  intro p hp
  refine lookup_getD_bound (fun v : ℚ => v ≤ 0.9) p.2 (pyLower i2) 0.5 ?_ (by norm_num)
  intro q hq
  fin_cases hp <;> fin_cases hq <;> norm_num

/-- The title synergy sub-score never exceeds 0.8. -/
theorem title_synergy_le : ∀ t1 t2 : String, calculate_title_synergy t1 t2 ≤ 0.8 := by
  intro t1 t2
  rw [calculate_title_synergy]
  split_ifs <;> norm_num

/-- The bio similarity sub-score never exceeds 1 (the Jaccard quotient is
    a subset ratio). -/
theorem bio_similarity_le : ∀ (f : String → List String) (b1 b2 : String),
    calculate_bio_similarity f b1 b2 ≤ 1 := by
  intro f b1 b2
  rw [calculate_bio_similarity]
  split_ifs with h1 h2 h3
  · norm_num
  · norm_num
  · rw [div_le_one (by exact_mod_cast h3)]
    exact_mod_cast Finset.card_le_card Finset.inter_subset_union
  · norm_num

/-- For non-negative network values the network sub-score never exceeds 1. -/
theorem network_compat_le : ∀ v1 v2 : ℚ, 0 ≤ v1 → 0 ≤ v2 →
    calculate_network_value_compatibility v1 v2 ≤ 1 := by
  intro v1 v2 h1 h2
  rw [calculate_network_value_compatibility]
  split_ifs with h
  · norm_num
  · push_neg at h
    have hmax : 0 < max v1 v2 := lt_max_of_lt_left (lt_of_le_of_ne h1 (Ne.symm h.1))
    have hr : min v1 v2 / max v1 v2 ≤ 1 := (div_le_one hmax).mpr min_le_max
    linarith

/-- The location proximity sub-score never exceeds 1. -/
theorem location_proximity_le : ∀ l1 l2 : String, calculate_location_proximity l1 l2 ≤ 1 := by
  intro l1 l2
  rw [calculate_location_proximity]
  split_ifs <;> norm_num

/-- Claim C9: each sub-score is bounded (industry by 0.9, title synergy by
    0.8, the other three by 1), so for profiles with non-negative network
    values the weighted sum is at most 0.935 and `calculate_match_score`
    never exceeds 93.5 — the upper clamp at 100 is unreachable. -/
theorem C9_upper_bound :
    (∀ i1 i2 : String, calculate_industry_compatibility i1 i2 ≤ 0.9) ∧
    (∀ t1 t2 : String, calculate_title_synergy t1 t2 ≤ 0.8) ∧
    (∀ (f : String → List String) (b1 b2 : String), calculate_bio_similarity f b1 b2 ≤ 1) ∧
    (∀ v1 v2 : ℚ, 0 ≤ v1 → 0 ≤ v2 → calculate_network_value_compatibility v1 v2 ≤ 1) ∧
    (∀ l1 l2 : String, calculate_location_proximity l1 l2 ≤ 1) ∧
    (∀ (f : String → List String) (a b : Profile),
       0 ≤ a.networkValue.getD 0 → 0 ≤ b.networkValue.getD 0 →
       calculate_match_score f a b ≤ 93.5) := by
  refine ⟨industry_compat_le, title_synergy_le, bio_similarity_le, network_compat_le,
    location_proximity_le, ?_⟩
  intro f a b ha hb
  cases hE : extract_matching_features a b with
  | none => simp only [calculate_match_score, hE]; norm_num
  | some v =>
      simp only [calculate_match_score, hE]
      have h1 := industry_compat_le (a.industry.getD "") (b.industry.getD "")
      have h2 := title_synergy_le (a.title.getD "") (b.title.getD "")
      have h3 := bio_similarity_le f (a.bio.getD "") (b.bio.getD "")
      have h4 := network_compat_le _ _ ha hb
      have h5 := location_proximity_le (a.location.getD "") (b.location.getD "")
      have hsum : (calculate_industry_compatibility (a.industry.getD "") (b.industry.getD "") * 0.25 +
          calculate_title_synergy (a.title.getD "") (b.title.getD "") * 0.20 +
          calculate_bio_similarity f (a.bio.getD "") (b.bio.getD "") * 0.20 +
          calculate_network_value_compatibility (a.networkValue.getD 0) (b.networkValue.getD 0) * 0.15 +
          calculate_location_proximity (a.location.getD "") (b.location.getD "") * 0.20) * 100 ≤ 93.5 := by
        linarith
      calc min (max ((calculate_industry_compatibility (a.industry.getD "") (b.industry.getD "") * 0.25 +
            calculate_title_synergy (a.title.getD "") (b.title.getD "") * 0.20 +
            calculate_bio_similarity f (a.bio.getD "") (b.bio.getD "") * 0.20 +
            calculate_network_value_compatibility (a.networkValue.getD 0) (b.networkValue.getD 0) * 0.15 +
            calculate_location_proximity (a.location.getD "") (b.location.getD "") * 0.20) * 100) 0) 100 ≤
          max ((calculate_industry_compatibility (a.industry.getD "") (b.industry.getD "") * 0.25 +
            calculate_title_synergy (a.title.getD "") (b.title.getD "") * 0.20 +
            calculate_bio_similarity f (a.bio.getD "") (b.bio.getD "") * 0.20 +
            calculate_network_value_compatibility (a.networkValue.getD 0) (b.networkValue.getD 0) * 0.15 +
            calculate_location_proximity (a.location.getD "") (b.location.getD "") * 0.20) * 100) 0 :=
          min_le_left _ _
        _ ≤ 93.5 := max_le hsum (by norm_num)

/-- Witness for claim C9 at concrete inputs. -/
theorem C9_upper_bound_witness :
    calculate_match_score (fun _ => []) { industry := some "technology", networkValue := some 50000 }
      { industry := some "technology", networkValue := some 100 } ≤ 93.5 ∧
    calculate_network_value_compatibility 5 7 ≤ 1 := by
  constructor
  · exact C9_upper_bound.2.2.2.2.2 (fun _ => [])
      { industry := some "technology", networkValue := some 50000 }
      { industry := some "technology", networkValue := some 100 } (by norm_num) (by norm_num)
  · exact C9_upper_bound.2.2.2.1 5 7 (by norm_num) (by norm_num)

/-- A cache write is read back under its key (per-key overwrite). -/
theorem cacheLookup_insert (c : TrendsCache) (k : String) (e : CacheEntry) :
    cacheLookup (cacheInsert c k e) k = some e := by
  simp [cacheLookup, cacheInsert]

/-- Claim C3: `analyze_market_trends` returns a stored entry unchanged
    (cache untouched) whenever its age is strictly below the 6-hour TTL,
    and otherwise — entry absent or age at/over the TTL — computes a fresh
    bundle stamped `now`, stores it under the key overwriting any prior
    entry, and returns it. -/
theorem C3_cache_ttl : ∀ (c : TrendsCache) (now jitter : ℚ) (industry : String)
    (loc : Option String),
    (∀ e, cacheLookup c (mkCacheKey industry loc) = some e →
       now - e.timestamp < cache_expiry →
       analyze_market_trends c now jitter industry loc = (e.data, c)) ∧
    ((∀ e, cacheLookup c (mkCacheKey industry loc) = some e →
        ¬ now - e.timestamp < cache_expiry) →
       analyze_market_trends c now jitter industry loc =
         (compute_trends industry now jitter,
          cacheInsert c (mkCacheKey industry loc)
            (CacheEntry.mk (compute_trends industry now jitter) now))) ∧
    (compute_trends industry now jitter).lastUpdated = some now ∧
    (∀ e, cacheLookup (cacheInsert c (mkCacheKey industry loc) e)
        (mkCacheKey industry loc) = some e) := by
  intro c now jitter industry loc
  refine ⟨?_, ?_, rfl, fun e => cacheLookup_insert c _ e⟩
  · intro e he hf
    simp only [analyze_market_trends, he, if_pos hf]
  · intro h
    cases hE : cacheLookup c (mkCacheKey industry loc) with
    | none => simp only [analyze_market_trends, hE]
    | some e => simp only [analyze_market_trends, hE, if_neg (h e hE)]

/-- Witness for claim C3: a concrete one-entry cache is read back intact
    within the TTL (second call sees the first call's bundle, jitter and
    timestamp included), and is recomputed and overwritten at age 10. -/
theorem C3_cache_ttl_witness :
    analyze_market_trends
        [(mkCacheKey "technology" none, CacheEntry.mk (compute_trends "technology" 0 0) 0)]
        1 0.01 "technology" none =
      (compute_trends "technology" 0 0,
       [(mkCacheKey "technology" none, CacheEntry.mk (compute_trends "technology" 0 0) 0)]) ∧
    analyze_market_trends
        [(mkCacheKey "technology" none, CacheEntry.mk (compute_trends "technology" 0 0) 0)]
        10 0.01 "technology" none =
      (compute_trends "technology" 10 0.01,
       cacheInsert [(mkCacheKey "technology" none, CacheEntry.mk (compute_trends "technology" 0 0) 0)]
         (mkCacheKey "technology" none) (CacheEntry.mk (compute_trends "technology" 10 0.01) 10)) := by
  constructor
  · exact (C3_cache_ttl _ 1 0.01 "technology" none).1
      (CacheEntry.mk (compute_trends "technology" 0 0) 0) rfl (by norm_num [cache_expiry])
  · refine (C3_cache_ttl _ 10 0.01 "technology" none).2.1 ?_
    intro e he
    have h0 : CacheEntry.mk (compute_trends "technology" 0 0) 0 = e := Option.some.inj he
    rw [← h0]
    norm_num [cache_expiry]

/-- Inserting into a descending chain by `insertByDesc` keeps it a
    descending chain. -/
theorem chain'_insertByDesc {α : Type} (key : α → ℚ) (x : α) :
    ∀ l : List α, List.Chain' (fun a b => key b ≤ key a) l →
      List.Chain' (fun a b => key b ≤ key a) (insertByDesc key x l) := by
  intro l
  induction l with
  | nil => intro _; exact List.chain'_singleton x
  | cons y ys ih =>
      intro h
      rw [insertByDesc]
      split_ifs with hxy
      · exact h.cons hxy
      · rw [List.chain'_cons'] at h ⊢
        refine ⟨?_, ih h.2⟩
        intro z hz
        cases ys with
        | nil =>
            simp only [insertByDesc, List.head?_cons, Option.mem_def, Option.some.injEq] at hz
            rw [← hz]
            exact (not_le.mp hxy).le
        | cons w ws =>
            rw [insertByDesc] at hz
            split_ifs at hz with hxw
            · simp only [List.head?_cons, Option.mem_def, Option.some.injEq] at hz
              rw [← hz]
              exact (not_le.mp hxy).le
            · simp only [List.head?_cons, Option.mem_def, Option.some.injEq] at hz
              rw [← hz]
              exact h.1 w rfl

/-- `sortByDesc` always yields a descending chain in its key. -/
theorem chain'_sortByDesc {α : Type} (key : α → ℚ) :
    ∀ l : List α, List.Chain' (fun a b => key b ≤ key a) (sortByDesc key l)
  | [] => List.chain'_nil
  | x :: xs => chain'_insertByDesc key x _ (chain'_sortByDesc key xs)

/-- Claim C7: a profile whose industry text contains "technology" and
    whose network value exceeds 10000 receives exactly the three fixed
    opportunities, confidence-descending (0.85 expansion, 0.78
    partnership, 0.72 investment); in general the result is always sorted
    descending by confidence and holds at most 5 entries. -/
theorem C7_opportunities : ∀ p : Profile,
    (pyIn "technology" (pyLower (p.industry.getD "")) = true →
     p.networkValue.getD 0 > 10000 →
     predict_business_opportunities p = [tech_opp_2, tech_opp_1, invest_opp]) ∧
    List.Chain' (fun a b => b.confidence ≤ a.confidence) (predict_business_opportunities p) ∧
    (predict_business_opportunities p).length ≤ 5 := by
  intro p
  refine ⟨?_, ?_, ?_⟩
  · intro h1 h2
    rw [predict_business_opportunities, if_pos h1, if_pos h2]
    norm_num [sortByDesc, insertByDesc, tech_opp_1, tech_opp_2, invest_opp]
  · rw [predict_business_opportunities]
    exact (chain'_sortByDesc (fun o : Opportunity => o.confidence) _).take 5
  · rw [predict_business_opportunities]
    exact List.length_take_le 5 _

/-- Witness for claim C7 at the profile of the claim
    (industry "technology", networkValue 50000). -/
theorem C7_opportunities_witness :
    predict_business_opportunities { industry := some "technology", networkValue := some 50000 } =
      [tech_opp_2, tech_opp_1, invest_opp] :=
  (C7_opportunities { industry := some "technology", networkValue := some 50000 }).1
    (by decide) (by norm_num)

/-- The post-call predictor state: unchanged when already trained,
    otherwise the trained state — regardless of whether the abstract
    estimator call succeeds. -/
theorem predict_deal_state (rx : Nat → Nat → ℚ) (rn : Nat → ℚ)
    (predictFn : Option (List (List ℚ) × List ℚ) → List ℚ → Option ℚ)
    (st : DealSuccessPredictor) (deal : DealRecord) :
    (predict_deal_success rx rn predictFn st deal).1 =
      if st.is_trained then st else train_model rx rn st := by
  cases h : predictFn (if st.is_trained then st else train_model rx rn st).modelData
      (extract_deal_features deal) with
  | none => simp only [predict_deal_success, h]
  | some p => simp only [predict_deal_success, h]

/-- Claim C8: the estimator is trained lazily exactly once — an untrained
    state is replaced by the state fitted on the seeded synthetic dataset
    (1000 samples, 5 uniform features, the fixed coefficients of
    `syntheticY`), a trained state is never touched again, the trained
    flag stays set, and a second call leaves the state of the first call
    unchanged. -/
theorem C8_train_once : ∀ (rx : Nat → Nat → ℚ) (rn : Nat → ℚ)
    (predictFn : Option (List (List ℚ) × List ℚ) → List ℚ → Option ℚ)
    (st : DealSuccessPredictor) (deal : DealRecord),
    (st.is_trained = false →
       (predict_deal_success rx rn predictFn st deal).1 =
         DealSuccessPredictor.mk (some (syntheticX rx, syntheticY rx rn)) true) ∧
    (st.is_trained = true → (predict_deal_success rx rn predictFn st deal).1 = st) ∧
    (predict_deal_success rx rn predictFn st deal).1.is_trained = true ∧
    (∀ deal2, (predict_deal_success rx rn predictFn
        ((predict_deal_success rx rn predictFn st deal).1) deal2).1 =
      (predict_deal_success rx rn predictFn st deal).1) ∧
    (syntheticX rx).length = 1000 ∧ (∀ row ∈ syntheticX rx, row.length = 5) ∧
    (syntheticY rx rn).length = 1000 := by
  intro rx rn pf st deal
  refine ⟨?_, ?_, ?_, ?_, ?_, ?_, ?_⟩
  · intro h
    rw [predict_deal_state, if_neg (by rw [h]; exact Bool.false_ne_true), train_model]
  · intro h
    rw [predict_deal_state, if_pos h]
  · rw [predict_deal_state]
    split_ifs with h
    · exact h
    · rfl
  · intro deal2
    rw [predict_deal_state, predict_deal_state]
    by_cases h : st.is_trained = true <;> simp [h, train_model]
  · simp [syntheticX]
  · intro row hrow
    simp only [syntheticX, List.mem_map] at hrow
    obtain ⟨i, _, hi⟩ := hrow
    rw [← hi]
    simp
  · simp [syntheticY]

/-- Witness for claim C8: a first call from the fresh predictor state
    trains it; a call on an already-trained state leaves it unchanged. -/
theorem C8_train_once_witness :
    (predict_deal_success (fun _ _ => 0) (fun _ => 0) (fun _ _ => none)
       deal_predictor_init {}).1 =
      DealSuccessPredictor.mk
        (some (syntheticX (fun _ _ => 0), syntheticY (fun _ _ => 0) (fun _ => 0))) true ∧
    (predict_deal_success (fun _ _ => 0) (fun _ => 0) (fun _ _ => none)
       (DealSuccessPredictor.mk (some ([], [])) true) {}).1 =
      DealSuccessPredictor.mk (some ([], [])) true :=
  ⟨(C8_train_once (fun _ _ => 0) (fun _ => 0) (fun _ _ => none) deal_predictor_init {}).1 rfl,
   (C8_train_once (fun _ _ => 0) (fun _ => 0) (fun _ _ => none)
      (DealSuccessPredictor.mk (some ([], [])) true) {}).2.1 rfl⟩

/-- A freshly computed bundle is never the default bundle: the fresh
    competitor analysis always has three rows, the default has none. -/
theorem compute_trends_ne_default : ∀ (industry : String) (now jitter : ℚ),
    compute_trends industry now jitter ≠ default_trends := by
  intro i n j h
  have hc := congrArg TrendsBundle.competitorAnalysis h
  simp [compute_trends, default_trends, analyze_competitors] at hc

/-- Claim C2: every representable internal failure is absorbed — a
    zero-division in feature extraction makes `calculate_match_score`
    return 0.0; a raising estimator call makes `predict_deal_success`
    return the default prediction (probability 50.0, confidence 0.3,
    empty factors and recommendations); the default trends bundle carries
    confidence 0.3; and no cache produced by `analyze_market_trends` ever
    holds the default bundle (the meeting-success and opportunity bodies
    contain no partial operation, so they are total by construction). -/
theorem C2_fail_soft :
    (∀ (f : String → List String) (a b : Profile),
       extract_matching_features a b = none → calculate_match_score f a b = 0) ∧
    (∀ (rx : Nat → Nat → ℚ) (rn : Nat → ℚ)
       (predictFn : Option (List (List ℚ) × List ℚ) → List ℚ → Option ℚ)
       (st : DealSuccessPredictor) (deal : DealRecord),
       predictFn (if st.is_trained then st else train_model rx rn st).modelData
           (extract_deal_features deal) = none →
       (predict_deal_success rx rn predictFn st deal).2 = default_deal_prediction) ∧
    default_deal_prediction = DealPrediction.mk 50 0.3 [] [] ∧
    default_trends.confidence = 0.3 ∧
    (∀ (c : TrendsCache) (now jitter : ℚ) (industry : String) (loc : Option String)
       (k : String) (e : CacheEntry),
       (∀ p ∈ c, p.2.data ≠ default_trends) →
       (k, e) ∈ (analyze_market_trends c now jitter industry loc).2 →
       e.data ≠ default_trends) := by
  refine ⟨?_, ?_, rfl, rfl, ?_⟩
  · intro f a b h
    simp only [calculate_match_score, h]
  · intro rx rn pf st deal h
    simp only [predict_deal_success, h]
  · intro c now jitter industry loc k e hc hmem
    have hfresh : ∀ hm : (k, e) ∈ cacheInsert c (mkCacheKey industry loc)
        (CacheEntry.mk (compute_trends industry now jitter) now), e.data ≠ default_trends := by
      intro hm
      rcases List.mem_cons.mp hm with hhead | htail
      · have he : e = CacheEntry.mk (compute_trends industry now jitter) now :=
          congrArg Prod.snd hhead
        rw [he]
        exact compute_trends_ne_default industry now jitter
      · exact hc (k, e) (List.mem_filter.mp htail).1
    cases hE : cacheLookup c (mkCacheKey industry loc) with
    | none =>
        simp only [analyze_market_trends, hE] at hmem
        exact hfresh hmem
    | some entry =>
        simp only [analyze_market_trends, hE] at hmem
        by_cases ht : now - entry.timestamp < cache_expiry
        · rw [if_pos ht] at hmem
          exact hc (k, e) hmem
        · rw [if_neg ht] at hmem
          exact hfresh hmem

/-- Witness for claim C2: the zero-division pair yields 0.0; a raising
    estimator yields the default deal prediction; the bundle stored by a
    fresh-cache call is not the default bundle. -/
theorem C2_fail_soft_witness :
    calculate_match_score (fun _ => []) { networkValue := some 0 } { networkValue := some 0 } = 0 ∧
    (predict_deal_success (fun _ _ => 0) (fun _ => 0) (fun _ _ => none)
       deal_predictor_init {}).2 = default_deal_prediction ∧
    (CacheEntry.mk (compute_trends "technology" 0 0) 0).data ≠ default_trends := by
  refine ⟨C2_fail_soft.1 (fun _ => []) _ _ ?_, C2_fail_soft.2.1 _ _ _ _ _ rfl, ?_⟩
  · rw [extract_matching_features, if_pos (by norm_num)]
  · exact C2_fail_soft.2.2.2.2 [] 0 0 "technology" none (mkCacheKey "technology" none)
      (CacheEntry.mk (compute_trends "technology" 0 0) 0)
      (by intro p hp; cases hp) (List.mem_cons_self _ _)
